import Mathlib

/-!
# Verification of the Library Manager store (`src/book.py`)

A shallow embedding of the data-management functions of the personal
library manager: `load_library`, `save_library`, `add_book`,
`remove_book`, the Search-Books filter, and the Library-Stats
aggregations.  Python dictionaries holding book records are modelled by
the structure `Book`; their on-file JSON form by `PyVal`; the backing
file by `FileState`.  Python string operations used by the code
(`str.lower`, `str.split(" - ")[0]`) are modelled character-wise so that
every definition evaluates inside the kernel.
-/

/-- Model of Python `str.lower()` (ASCII case folding, as used on the
ASCII titles handled by the program): lower-case every character. -/
def pyLower (s : String) : String := String.mk (s.data.map Char.toLower)

/-- Characters of a string up to (excluding) the first occurrence of the
separator `sep`; the whole string when `sep` does not occur.  For a
non-empty `sep` this is exactly Python `s.split(sep)[0]`. -/
def firstSegmentAux (sep : List Char) : List Char → List Char
  | [] => []
  | c :: rest => if sep.isPrefixOf (c :: rest) then [] else c :: firstSegmentAux sep rest

/-- Model of `search_query.split(" - ")[0]` from the Search Books section
(src/book.py line 146). -/
def selectedTitle (query : String) : String :=
  String.mk (firstSegmentAux [' ', '-', ' '] query.data)

/-- A book record: the dictionary built by `add_book`
(src/book.py lines 69-78).  All records handled by the program are
created there, so they all carry exactly these fields. -/
structure Book where
  title : String
  author : String
  year : Int
  genre : String
  read : Bool
  rating : Int
  notes : String
  date_added : String
deriving DecidableEq

/-- The dictionary literal of `add_book` (src/book.py lines 69-78).
`int(year)` is the identity here because the year delivered by the
year input widget is already an integer. -/
def mkBook (title author : String) (year : Int) (genre : String) (read : Bool)
    (rating : Int) (notes : String) (date_added : String) : Book :=
  { title := title, author := author, year := year, genre := genre,
    read := read, rating := rating, notes := notes, date_added := date_added }

/-- JSON-representable Python values, as produced by `json.load` and
consumed by `json.dump` for the data this program stores. -/
inductive PyVal where
  | str : String → PyVal
  | int : Int → PyVal
  | bool : Bool → PyVal
  | list : List PyVal → PyVal
  | dict : List (String × PyVal) → PyVal

/-- The key/value pairs of the record dictionary, in the order the
`add_book` literal writes them (src/book.py lines 69-78). -/
def toDict (b : Book) : List (String × PyVal) :=
  [("title", PyVal.str b.title), ("author", PyVal.str b.author),
   ("year", PyVal.int b.year), ("genre", PyVal.str b.genre),
   ("read", PyVal.bool b.read), ("rating", PyVal.int b.rating),
   ("notes", PyVal.str b.notes), ("date_added", PyVal.str b.date_added)]

/-- Read a book record back out of a key/value dictionary: the inverse
view of `toDict`, used to say which parsed JSON objects denote book
records. -/
def fromDict (kvs : List (String × PyVal)) : Option Book :=
  match List.lookup "title" kvs, List.lookup "author" kvs, List.lookup "year" kvs,
      List.lookup "genre" kvs, List.lookup "read" kvs, List.lookup "rating" kvs,
      List.lookup "notes" kvs, List.lookup "date_added" kvs with
  | some (PyVal.str t), some (PyVal.str a), some (PyVal.int y), some (PyVal.str g),
    some (PyVal.bool rd), some (PyVal.int rt), some (PyVal.str n), some (PyVal.str d) =>
      some (mkBook t a y g rd rt n d)
  | _, _, _, _, _, _, _, _ => none

/-- A parsed JSON value that denotes one book record. -/
def decodeBook (v : PyVal) : Option Book :=
  match v with
  | PyVal.dict kvs => fromDict kvs
  | _ => none

/-- Decode a list of parsed JSON values as a list of book records. -/
def decodeBooks : List PyVal → Option (List Book)
  | [] => some []
  | v :: vs =>
    match decodeBook v, decodeBooks vs with
    | some b, some bs => some (b :: bs)
    | _, _ => none

/-- A parsed JSON value that denotes a whole collection (a JSON array of
book-record objects). -/
def decodeLibrary (v : PyVal) : Option (List Book) :=
  match v with
  | PyVal.list vs => decodeBooks vs
  | _ => none

/-- State of the backing file `library.json`: missing, present but not
parseable as JSON, or holding a parsed JSON value. -/
inductive FileState where
  | absent
  | malformed
  | content : PyVal → FileState

/-- `load_library` (src/book.py lines 56-61): `json.load` the file;
on `FileNotFoundError` or `json.JSONDecodeError` return `[]`. -/
def load_library : FileState → PyVal
  | FileState.absent => PyVal.list []
  | FileState.malformed => PyVal.list []
  | FileState.content v => v

/-- `save_library` (src/book.py lines 63-65): `json.dump` the collection
as a JSON array of record objects, overwriting the file. -/
def save_library (library : List Book) : FileState :=
  FileState.content (PyVal.list (library.map fun b => PyVal.dict (toDict b)))

/-- `add_book` (src/book.py lines 68-81): build the record dictionary,
append it to the collection and persist.  `now` stands for the
`datetime.now().strftime(...)` timestamp.  `save_library` is called on
the returned list. -/
def add_book (library : List Book) (title author : String) (year : Int)
    (genre : String) (read : Bool) (rating : Int) (notes : String)
    (now : String) : List Book :=
  library ++ [mkBook title author year genre read rating notes now]

/-- `book["title"].lower() == title.lower()` (src/book.py line 86). -/
def titleMatches (query : String) (b : Book) : Bool :=
  pyLower b.title == pyLower query

/-- Python `list.remove(x)`: delete the first element equal to `x`.
(Python raises `ValueError` when `x` is absent; `remove_book` only calls
this with an element it just found in the list, so that branch is
unreachable and the model returns the list unchanged.) -/
def pyListRemove (x : Book) : List Book → List Book
  | [] => []
  | y :: ys => if y = x then ys else y :: pyListRemove x ys

/-- Outcome of `remove_book`: the resulting collection, whether the
success message was shown (`st.success`, versus the `st.error`
"Book not found!" message), and whether `save_library` was called. -/
structure RemoveResult where
  library : List Book
  removed : Bool
  saved : Bool
deriving DecidableEq

/-- `remove_book` (src/book.py lines 84-92): scan for the first record
whose lower-cased title equals the lower-cased query; on a match,
`library.remove(book)`, persist and report success; otherwise report
"Book not found!" without touching the collection or the file. -/
def remove_book (library : List Book) (title : String) : RemoveResult :=
  match library.find? (titleMatches title) with
  | some book => { library := pyListRemove book library, removed := true, saved := true }
  | none => { library := library, removed := false, saved := false }

/-- The Search Books filter (src/book.py lines 146-147):
`selected_title = search_query.split(" - ")[0]` then
`[book for book in library if book["title"] == selected_title]`. -/
def search_books (library : List Book) (query : String) : List Book :=
  library.filter fun b => b.title == selectedTitle query

/-- `total_books = len(library)` (src/book.py line 184). -/
def total_books (library : List Book) : Nat := library.length

/-- `read_books = sum(1 for book in library if book["read"])`
(src/book.py line 185). -/
def read_books (library : List Book) : Nat :=
  library.foldl (fun acc b => if b.read then acc + 1 else acc) 0

/-- `unread_books = total_books - read_books` (src/book.py line 186). -/
def unread_books (library : List Book) : Nat :=
  total_books library - read_books library

/-- `percentage_read = (read_books / total_books * 100) if total_books > 0
else 0` (src/book.py line 187), with Python float division modelled over
the rationals. -/
def percentage_read (library : List Book) : ℚ :=
  if 0 < total_books library then
    (read_books library : ℚ) / (total_books library : ℚ) * 100
  else 0

/- ### Theorems -/

/-- C1.  `add_book` grows the collection by exactly one and the appended
record carries exactly the input field values (the year already being an
integer, `int(year)` leaves it unchanged); the records already present
are untouched. -/
theorem add_book_appends (lib : List Book) (t a : String) (y : Int) (g : String)
    (rd : Bool) (rt : Int) (n now : String) :
    (add_book lib t a y g rd rt n now).length = lib.length + 1 ∧
    (add_book lib t a y g rd rt n now).getLast? =
      some { title := t, author := a, year := y, genre := g,
             read := rd, rating := rt, notes := n, date_added := now } ∧
    (add_book lib t a y g rd rt n now).take lib.length = lib := by
  refine ⟨by simp [add_book], ?_, ?_⟩
  · simp [add_book, mkBook, List.getLast?_concat]
  · simp [add_book, List.take_left lib [mkBook t a y g rd rt n now]]

/-- C9.  The record dictionary built by `add_book` has exactly the keys
`title, author, year, genre, read, rating, notes, date_added`, in that
order; in particular no `cover_path` key is ever stored (the cover
upload block, src/book.py lines 98-109, never touches the records). -/
theorem add_book_record_keys (t a : String) (y : Int) (g : String)
    (rd : Bool) (rt : Int) (n now : String) :
    (toDict (mkBook t a y g rd rt n now)).map Prod.fst =
      ["title", "author", "year", "genre", "read", "rating", "notes", "date_added"] ∧
    "cover_path" ∉ (toDict (mkBook t a y g rd rt n now)).map Prod.fst := by
  have hk : (toDict (mkBook t a y g rd rt n now)).map Prod.fst =
      ["title", "author", "year", "genre", "read", "rating", "notes", "date_added"] := rfl
  exact ⟨hk, by rw [hk]; decide⟩

/-- Decoding the stored form of a record gives the record back. -/
theorem decodeBook_toDict (b : Book) : decodeBook (PyVal.dict (toDict b)) = some b := rfl

/-- C3.  Round trip: loading what `save_library` wrote yields a JSON
value denoting exactly the saved collection — same records, same field
values, same order. -/
theorem load_save_roundtrip (X : List Book) :
    decodeLibrary (load_library (save_library X)) = some X := by
  show decodeBooks (X.map fun b => PyVal.dict (toDict b)) = some X
  induction X with
  | nil => rfl
  | cons b bs ih => simp [decodeBooks, decodeBook_toDict, ih]

/-- C5.  `load_library` never signals an error: on a missing file
(`FileNotFoundError`) and on malformed contents (`json.JSONDecodeError`)
it returns the empty collection. -/
theorem load_library_fail_open :
    load_library FileState.absent = PyVal.list [] ∧
    load_library FileState.malformed = PyVal.list [] ∧
    decodeLibrary (load_library FileState.absent) = some [] ∧
    decodeLibrary (load_library FileState.malformed) = some [] :=
  ⟨rfl, rfl, rfl, rfl⟩

/-- `library.remove(book)` applied to the element found by the matching
scan deletes exactly the entry at the first matching index: an earlier
equal element would have an equal title and hence would have matched
first. -/
theorem pyListRemove_find (p : Book → Bool) (l : List Book) (x : Book)
    (h : l.find? p = some x) :
    pyListRemove x l = l.take (l.findIdx p) ++ l.drop (l.findIdx p + 1) := by
  induction l with
  | nil => simp at h
  | cons b bs ih =>
    by_cases hb : p b
    · rw [List.find?_cons_of_pos _ hb] at h
      obtain rfl : b = x := by injection h
      simp [pyListRemove, List.findIdx_cons, hb]
    · rw [List.find?_cons_of_neg _ hb] at h
      have hpx : p x = true := List.find?_some h
      have hbx : b ≠ x := fun he => hb (he ▸ hpx)
      simp [pyListRemove, hbx, List.findIdx_cons, hb, List.take_succ_cons,
        List.drop_succ_cons, ih h]

/-- C2.  When at least one record matches the queried title
case-insensitively, `remove_book` deletes exactly the first such record
(the collection becomes `take i ++ drop (i+1)` at the first matching
index `i`, so every later duplicate remains) and the size drops by
exactly one. -/
theorem remove_book_removes_first_match (lib : List Book) (title : String)
    (h : ∃ b ∈ lib, titleMatches title b = true) :
    (remove_book lib title).library =
      lib.take (lib.findIdx (titleMatches title)) ++
        lib.drop (lib.findIdx (titleMatches title) + 1) ∧
    (remove_book lib title).library.length + 1 = lib.length := by
  obtain ⟨x, hx⟩ : ∃ x, lib.find? (titleMatches title) = some x := by
    have := List.find?_isSome.mpr (by simpa using h)
    exact Option.isSome_iff_exists.mp this
  have hlib : (remove_book lib title).library =
      lib.take (lib.findIdx (titleMatches title)) ++
        lib.drop (lib.findIdx (titleMatches title) + 1) := by
    simp only [remove_book, hx]
    exact pyListRemove_find _ _ _ hx
  have hi : lib.findIdx (titleMatches title) < lib.length :=
    List.findIdx_lt_length_of_exists h
  refine ⟨hlib, ?_⟩
  rw [hlib]
  simp only [List.length_append, List.length_take, List.length_drop]
  omega

/-- Example records for concrete witnesses: two duplicates of the same
title that differ only in case, and two unrelated books. -/
def hobbitA : Book := mkBook "The Hobbit" "J. R. R. Tolkien" 1937 "Fantasy" true 5 "" "2024-01-01 10:00:00"

def hobbitB : Book := mkBook "the hobbit" "Unknown" 2000 "Fantasy" false 0 "reprint" "2024-01-02 10:00:00"

def duneBook : Book := mkBook "Dune" "Frank Herbert" 1965 "SciFi" false 0 "" "2024-01-03 10:00:00"

def foundationBook : Book := mkBook "Foundation" "Asimov" 1951 "SciFi" false 0 "" "2024-01-04 10:00:00"

/-- C2 witness: removing "THE HOBBIT" from `[hobbitA, hobbitB]` deletes
only the first duplicate; `hobbitB` survives. -/
theorem remove_book_removes_first_match_witness :
    (∃ b ∈ [hobbitA, hobbitB], titleMatches "THE HOBBIT" b = true) ∧
    ((remove_book [hobbitA, hobbitB] "THE HOBBIT").library =
      [hobbitA, hobbitB].take ([hobbitA, hobbitB].findIdx (titleMatches "THE HOBBIT")) ++
        [hobbitA, hobbitB].drop ([hobbitA, hobbitB].findIdx (titleMatches "THE HOBBIT") + 1) ∧
    (remove_book [hobbitA, hobbitB] "THE HOBBIT").library.length + 1 =
      ([hobbitA, hobbitB] : List Book).length) :=
  ⟨⟨hobbitA, by decide, by decide⟩,
    remove_book_removes_first_match [hobbitA, hobbitB] "THE HOBBIT"
      ⟨hobbitA, by decide, by decide⟩⟩

/-- C6.  When no record matches the queried title case-insensitively,
`remove_book` leaves the collection unchanged, reports the distinct
"Book not found!" outcome (`removed = false`), and never calls
`save_library` (`saved = false`). -/
theorem remove_book_not_found (lib : List Book) (title : String)
    (h : ∀ b ∈ lib, titleMatches title b = false) :
    remove_book lib title = { library := lib, removed := false, saved := false } := by
  have hf : lib.find? (titleMatches title) = none :=
    List.find?_eq_none.mpr fun x hx => by simp [h x hx]
  simp [remove_book, hf]

/-- C6 witness: removing the absent title "Dune" from `[hobbitA]`. -/
theorem remove_book_not_found_witness :
    (∀ b ∈ [hobbitA], titleMatches "Dune" b = false) ∧
    remove_book [hobbitA] "Dune" =
      { library := [hobbitA], removed := false, saved := false } :=
  ⟨by decide, remove_book_not_found [hobbitA] "Dune" (by decide)⟩

/-- C10.  `remove_book` changes membership of at most one record: the
result is a sublist of the input, and it is either the input itself or
the input with exactly the entry at the first matching index deleted —
every other record keeps its field values and its relative order. -/
theorem remove_book_frame (lib : List Book) (title : String) :
    List.Sublist (remove_book lib title).library lib ∧
    ((remove_book lib title).library = lib ∨
      (remove_book lib title).library =
        lib.take (lib.findIdx (titleMatches title)) ++
          lib.drop (lib.findIdx (titleMatches title) + 1)) := by
  cases hf : lib.find? (titleMatches title) with
  | none => simp [remove_book, hf]
  | some x =>
    have he : (remove_book lib title).library =
        lib.take (lib.findIdx (titleMatches title)) ++
          lib.drop (lib.findIdx (titleMatches title) + 1) := by
      simp only [remove_book, hf]
      exact pyListRemove_find _ _ _ hf
    refine ⟨?_, Or.inr he⟩
    rw [he]
    have hdrop : List.Sublist
        (lib.drop (lib.findIdx (titleMatches title) + 1))
        (lib.drop (lib.findIdx (titleMatches title))) := by
      rw [show lib.findIdx (titleMatches title) + 1 =
            lib.findIdx (titleMatches title) + 1 from rfl,
        ← List.drop_drop 1 (lib.findIdx (titleMatches title)) lib]
      exact List.drop_sublist 1 _
    calc List.Sublist
          (lib.take (lib.findIdx (titleMatches title)) ++
            lib.drop (lib.findIdx (titleMatches title) + 1))
          (lib.take (lib.findIdx (titleMatches title)) ++
            lib.drop (lib.findIdx (titleMatches title))) :=
        hdrop.append_left _
    _ = lib := List.take_append_drop _ _

/-- C4 counterexample: the Search Books filter matches the exact title
string, not a case-insensitive substring of title or author, so the
query "dune" finds nothing in a collection holding "Dune" by
Frank Herbert. -/
theorem search_substring_counterexample :
    search_books [duneBook, foundationBook] "dune" = [] ∧
    duneBook ∉ search_books [duneBook, foundationBook] "dune" := by
  decide

/-- C4 (amended).  The Search Books filter returns exactly the records
whose title equals, case-sensitively, the part of the query before the
first " - " separator, in collection order; in particular the query
"Dune - Frank Herbert" returns exactly the Dune record. -/
theorem search_books_exact_title :
    (∀ (lib : List Book) (query : String),
      List.Sublist (search_books lib query) lib ∧
      ∀ b : Book, b ∈ search_books lib query ↔
        b ∈ lib ∧ b.title = selectedTitle query) ∧
    search_books [duneBook, foundationBook] "Dune - Frank Herbert" = [duneBook] := by
  refine ⟨fun lib query => ⟨List.filter_sublist _, fun b => ?_⟩, by decide⟩
  simp [search_books, List.mem_filter]

/-- Counting by a left fold starting at `n` adds `n` to the count. -/
theorem foldl_count_read (l : List Book) (n : Nat) :
    l.foldl (fun acc b => if b.read then acc + 1 else acc) n =
      n + l.countP (fun b => b.read) := by
  induction l generalizing n with
  | nil => simp
  | cons b bs ih =>
    rw [List.foldl_cons, List.countP_cons, ih]
    by_cases hb : b.read
    · simp [hb]
      omega
    · simp [hb]

/-- C7.  The Library Stats figures: total is the collection size, read
counts the records with `read` true, unread is total minus read, and the
read percentage is `read / total * 100`, with the empty collection
giving 0 instead of a division by zero — so an empty collection yields
total 0, read 0, unread 0, percent 0. -/
theorem statistics_correct (lib : List Book) :
    total_books lib = lib.length ∧
    read_books lib = lib.countP (fun b => b.read) ∧
    unread_books lib = lib.length - lib.countP (fun b => b.read) ∧
    percentage_read lib =
      (if lib.length = 0 then 0
       else (lib.countP (fun b => b.read) : ℚ) / (lib.length : ℚ) * 100) := by
  have hr : read_books lib = lib.countP (fun b => b.read) := by
    simpa using foldl_count_read lib 0
  refine ⟨rfl, hr, ?_, ?_⟩
  · simp [unread_books, total_books, hr]
  · by_cases h : lib.length = 0
    · simp [percentage_read, total_books, h]
    · rw [percentage_read, if_pos (by simpa [total_books] using Nat.pos_of_ne_zero h),
        if_neg h, hr]
      rfl

/-- Python dict assignment `d[k] = v` on an insertion-ordered
association list: overwrite the first entry with key `k`, else append a
new entry at the end. -/
def dictSet : List (String × Nat) → String → Nat → List (String × Nat)
  | [], k, v => [(k, v)]
  | (k₀, v₀) :: rest, k, v =>
    if k₀ = k then (k₀, v) :: rest else (k₀, v₀) :: dictSet rest k v

/-- Python `d[k] += 1` on an insertion-ordered association list:
increment the value of the first entry with key `k`.  (Python raises
`KeyError` on a missing key; the stats code only increments keys it has
just initialised, so that branch is unreachable and the model leaves the
list unchanged.) -/
def dictIncr : List (String × Nat) → String → List (String × Nat)
  | [], _ => []
  | (k₀, v₀) :: rest, k =>
    if k₀ = k then (k₀, v₀ + 1) :: rest else (k₀, v₀) :: dictIncr rest k

/-- Python dict lookup `d[k]` on an insertion-ordered association
list. -/
def dictGet : List (String × Nat) → String → Option Nat
  | [], _ => none
  | (k₀, v₀) :: rest, k => if k₀ = k then some v₀ else dictGet rest k

/-- `genres = {book["genre"]: 0 for book in library}`
(src/book.py line 196): keys in order of first appearance, all values
0. -/
def genreInit (library : List Book) : List (String × Nat) :=
  library.foldl (fun d b => dictSet d b.genre 0) []

/-- The genre frequency table of the Library Stats section
(src/book.py lines 196-198): initialise every genre to 0, then bump the
counter of each record's genre. -/
def genreCounts (library : List Book) : List (String × Nat) :=
  library.foldl (fun d b => dictIncr d b.genre) (genreInit library)

/-- The spec-side order of first appearance: each string of `l` once, at
the position of its first occurrence. -/
def firstAppearances (l : List String) : List String :=
  l.foldl (fun acc g => if g ∈ acc then acc else acc ++ [g]) []

/-- `dictSet` keeps the key order and appends an unseen key at the
end. -/
theorem dictSet_keys (d : List (String × Nat)) (k : String) (v : Nat) :
    (dictSet d k v).map Prod.fst =
      if k ∈ d.map Prod.fst then d.map Prod.fst else d.map Prod.fst ++ [k] := by
  induction d with
  | nil => simp [dictSet]
  | cons kv rest ih =>
    obtain ⟨k₀, v₀⟩ := kv
    by_cases hk : k₀ = k
    · subst hk
      simp [dictSet]
    · by_cases hm : k ∈ rest.map Prod.fst <;>
        simp [dictSet, hk, Ne.symm hk, hm, ih]

/-- `dictIncr` never changes the key list. -/
theorem dictIncr_keys (d : List (String × Nat)) (k : String) :
    (dictIncr d k).map Prod.fst = d.map Prod.fst := by
  induction d with
  | nil => rfl
  | cons kv rest ih =>
    obtain ⟨k₀, v₀⟩ := kv
    by_cases hk : k₀ = k <;> simp [dictIncr, hk, ih]

/-- Lookup after `dictSet`. -/
theorem dictGet_dictSet (d : List (String × Nat)) (k k' : String) (v : Nat) :
    dictGet (dictSet d k v) k' = if k = k' then some v else dictGet d k' := by
  induction d with
  | nil => simp [dictSet, dictGet]
  | cons kv rest ih =>
    obtain ⟨k₀, v₀⟩ := kv
    by_cases h0 : k₀ = k
    · subst h0
      by_cases h1 : k₀ = k' <;> simp [dictSet, dictGet, h1]
    · by_cases h1 : k₀ = k'
      · subst h1
        simp [dictSet, dictGet, h0, Ne.symm h0]
      · simp [dictSet, dictGet, h0, h1, ih]

/-- Lookup after `dictIncr`: the looked-up counter is bumped exactly
when it is the incremented key. -/
theorem dictGet_dictIncr (d : List (String × Nat)) (k k' : String) :
    dictGet (dictIncr d k) k' =
      if k = k' then Option.map (· + 1) (dictGet d k') else dictGet d k' := by
  induction d with
  | nil => simp [dictIncr, dictGet]
  | cons kv rest ih =>
    obtain ⟨k₀, v₀⟩ := kv
    by_cases h0 : k₀ = k
    · subst h0
      by_cases h1 : k₀ = k' <;> simp [dictIncr, dictGet, h1]
    · by_cases h1 : k₀ = k'
      · subst h1
        simp [dictIncr, dictGet, h0, Ne.symm h0]
      · simp [dictIncr, dictGet, h0, h1, ih]

/-- Key list of the initialisation fold: the keys already present,
followed by the unseen genres in order of first appearance. -/
theorem foldSet_keys (gs : List String) (d : List (String × Nat)) :
    ((gs.foldl (fun d g => dictSet d g 0) d).map Prod.fst) =
      gs.foldl (fun acc g => if g ∈ acc then acc else acc ++ [g]) (d.map Prod.fst) := by
  induction gs generalizing d with
  | nil => rfl
  | cons g gs ih => simp [List.foldl_cons, ih, dictSet_keys]

/-- The counting fold never changes the key list. -/
theorem foldIncr_keys (gs : List String) (d : List (String × Nat)) :
    ((gs.foldl (fun d g => dictIncr d g) d).map Prod.fst) = d.map Prod.fst := by
  induction gs generalizing d with
  | nil => rfl
  | cons g gs ih => simp [List.foldl_cons, ih, dictIncr_keys]

/-- Lookup after the initialisation fold: 0 for every genre of the list,
otherwise whatever was there before. -/
theorem foldSet_get (gs : List String) (d : List (String × Nat)) (g : String) :
    dictGet (gs.foldl (fun d k => dictSet d k 0) d) g =
      if g ∈ gs then some 0 else dictGet d g := by
  induction gs generalizing d with
  | nil => simp
  | cons k gs ih =>
    rw [List.foldl_cons, ih]
    by_cases hm : g ∈ gs
    · simp [hm]
    · by_cases hk : k = g
      · simp [hm, hk, dictGet_dictSet]
      · simp [hm, hk, Ne.symm hk, dictGet_dictSet]

/-- Lookup after the counting fold: each counter grows by the number of
occurrences of its key; counters never spring into existence. -/
theorem foldIncr_get (gs : List String) (d : List (String × Nat)) (g : String) :
    dictGet (gs.foldl (fun d k => dictIncr d k) d) g =
      Option.map (· + gs.countP (fun k => k == g)) (dictGet d g) := by
  induction gs generalizing d with
  | nil => cases hd : dictGet d g <;> simp [hd]
  | cons k gs ih =>
    rw [List.foldl_cons, ih, dictGet_dictIncr]
    by_cases hk : k = g
    · subst hk
      cases hd : dictGet d k
      · simp [hd]
      · simp [hd, List.countP_cons]
        omega
    · cases hd : dictGet d g <;> simp [hd, List.countP_cons, hk]

/-- Example records for the genre statistics: the spec's SciFi/Fantasy
collection and a collection whose most frequent genre appears last. -/
def sciFiBook1 : Book := mkBook "s1" "a1" 2000 "SciFi" true 0 "" "2024-01-05 10:00:00"

def sciFiBook2 : Book := mkBook "s2" "a2" 2001 "SciFi" false 0 "" "2024-01-05 11:00:00"

def fantasyBook : Book := mkBook "f1" "a3" 2002 "Fantasy" true 0 "" "2024-01-05 12:00:00"

def soloGenreBook : Book := mkBook "Alpha" "A" 2000 "Poetry" true 0 "" "2024-01-06 10:00:00"

def dupGenreBook1 : Book := mkBook "Beta" "B" 2001 "Drama" false 0 "" "2024-01-07 10:00:00"

def dupGenreBook2 : Book := mkBook "Gamma" "C" 2002 "Drama" false 0 "" "2024-01-08 10:00:00"

/-- C8 counterexample: the genre table is displayed in insertion order
of first appearance, not by descending count — with Poetry first and
Drama (count 2) second, the displayed counts 1, 2 are not
descending. -/
theorem genre_counts_order_counterexample :
    genreCounts [soloGenreBook, dupGenreBook1, dupGenreBook2] =
      [("Poetry", 1), ("Drama", 2)] ∧
    ¬ List.Chain' (fun p q : String × Nat => q.2 ≤ p.2)
        (genreCounts [soloGenreBook, dupGenreBook1, dupGenreBook2]) := by
  have h : genreCounts [soloGenreBook, dupGenreBook1, dupGenreBook2] =
      [("Poetry", 1), ("Drama", 2)] := by decide
  refine ⟨h, ?_⟩
  rw [h]
  simp [List.chain'_cons]

/-- C8 (amended).  The genre table maps each genre of the collection to
the number of records bearing it, and its display order is the insertion
order of first appearance in the collection; the spec's SciFi/Fantasy
example yields counts SciFi 2, Fantasy 1. -/
theorem genre_counts_insertion_order :
    (∀ lib : List Book,
      (genreCounts lib).map Prod.fst =
        firstAppearances (lib.map fun b => b.genre)) ∧
    (∀ (lib : List Book) (g : String),
      dictGet (genreCounts lib) g =
        if g ∈ lib.map (fun b => b.genre) then
          some (lib.countP fun b => b.genre == g)
        else none) ∧
    genreCounts [sciFiBook1, sciFiBook2, fantasyBook] =
      [("SciFi", 2), ("Fantasy", 1)] := by
  have h1 : ∀ lib : List Book, genreCounts lib =
      (lib.map fun b => b.genre).foldl (fun d k => dictIncr d k) (genreInit lib) :=
    fun lib =>
      (List.foldl_map (fun b : Book => b.genre) (fun d k => dictIncr d k)
        lib (genreInit lib)).symm
  have h2 : ∀ lib : List Book, genreInit lib =
      (lib.map fun b => b.genre).foldl (fun d k => dictSet d k 0) [] :=
    fun lib =>
      (List.foldl_map (fun b : Book => b.genre) (fun d k => dictSet d k 0) lib []).symm
  refine ⟨fun lib => ?_, fun lib g => ?_, by decide⟩
  · rw [h1, foldIncr_keys, h2, foldSet_keys]
    rfl
  · rw [h1, foldIncr_get, h2, foldSet_get]
    by_cases hm : g ∈ lib.map fun b => b.genre
    · simp [hm, List.countP_map, Function.comp_def]
    · simp [hm, dictGet]
